import Mathlib

/-!
Verification development for the playlist-mcp repository.

The Python sources are shallowly embedded as executable Lean definitions:
pure functions become Lean functions over `String` / `List Char` / `Nat` /
`ℚ`; Python exceptions become `Except String`; calls into external services
(the Spotify client, the langdetect library, the emoji database,
`random.shuffle`, CPython's hash-based `set` iteration order) become explicit
function parameters, constrained where needed by hypotheses stating exactly
what the external behaviour is allowed to be.

Python `float` arithmetic is modelled exactly over `ℚ`; every numeric
constant in the modelled code (0.1, 0.4, 0.6, 0.8, 2, ...) and every derived
quantity compared in a theorem is far from any float rounding boundary, and
no modelled code path branches on a float comparison.
-/

namespace PlaylistMCP

/-! ## Basic string helpers (Python semantics on `List Char`) -/

/-- Python `str.lower()` restricted to ASCII case mapping (all keyword
tables in the sources are ASCII; non-ASCII characters pass through both in
`Char.toLower` and, for the inputs considered here, in Python). -/
def pyLower (s : String) : String :=
  String.mk (s.toList.map Char.toLower)

/-- One step of Python substring search: does `needle` occur as a prefix at
some position of `hay`?  Mirrors the semantics of Python's `needle in hay`. -/
def listContainsSub : List Char → List Char → Bool
  | _, [] => false
  | needle, c :: cs => needle.isPrefixOf (c :: cs) || listContainsSub needle cs

/-- Python `needle in hay` for strings. -/
def strContains (hay needle : String) : Bool :=
  needle.toList.isEmpty || listContainsSub needle.toList hay.toList

/-- Prefix test against a string literal. -/
def startsWithChars (pre : String) (cs : List Char) : Bool :=
  pre.toList.isPrefixOf cs

/-- Numeric value of a run of ASCII digits. -/
def natOfDigits (ds : List Char) : Nat :=
  ds.foldl (fun n c => n * 10 + (c.toNat - '0'.toNat)) 0

/-! ## Regex search for the duration patterns

All duration regexes in the sources have the shape
`(\d+)\s*UNIT`: a captured digit run, optional whitespace, then a unit
alternation.  `re.search` scans left to right and returns the leftmost
match; the digit run is taken greedily (backtracking cannot help, because
the character after a shortened digit run would be a digit, which no unit
alternative starts with).  `reSearchNumUnit unit cs` is exactly that
semantics: at each position, if a digit starts there, take the maximal digit
run, skip whitespace and test the unit alternation on the rest. -/

def reSearchNumUnit (unit : List Char → Bool) : List Char → Option Nat
  | [] => none
  | c :: cs =>
    if c.isDigit then
      let run := (c :: cs).takeWhile Char.isDigit
      let rest := (c :: cs).dropWhile Char.isDigit
      if unit (rest.dropWhile Char.isWhitespace) then
        some (natOfDigits run)
      else
        reSearchNumUnit unit cs
    else
      reSearchNumUnit unit cs

/-- Unit alternation of `(\d+)\s*(?:hour|hr|h)(?:s)?` (mood_analyzer.py:27). -/
def hourUnit (cs : List Char) : Bool :=
  startsWithChars "hour" cs || startsWithChars "hr" cs || startsWithChars "h" cs

/-- Unit alternation of `(\d+)\s*(?:minute|min|m)(?:s)?` (mood_analyzer.py:28). -/
def minuteUnit (cs : List Char) : Bool :=
  startsWithChars "minute" cs || startsWithChars "min" cs || startsWithChars "m" cs

/-- Unit alternation of `(\d+)\s*(?:song|track)(?:s)?` (mood_analyzer.py:29). -/
def songUnit (cs : List Char) : Bool :=
  startsWithChars "song" cs || startsWithChars "track" cs

/-- `MoodAnalyzer.duration_patterns` (mood_analyzer.py:26-30): pattern and
converter pairs, in declaration order. -/
def duration_patterns : List ((List Char → Bool) × (Nat → Nat)) :=
  [(hourUnit, fun n => n * 60), (minuteUnit, fun n => n), (songUnit, fun n => n * 4)]

/-- The loop body of `MoodAnalyzer.extract_duration` (mood_analyzer.py:147-153):
try each pattern in order, first match wins, default 30. -/
def firstDurationMatch (cs : List Char) : List ((List Char → Bool) × (Nat → Nat)) → Nat
  | [] => 30
  | (unit, conv) :: ps =>
    match reSearchNumUnit unit cs with
    | some n => conv n
    | none => firstDurationMatch cs ps

/-- `MoodAnalyzer.extract_duration` (mood_analyzer.py:143-153). -/
def extract_duration (text : String) : Nat :=
  firstDurationMatch (pyLower text).toList duration_patterns

/-! ## Song-count computations (claim C7)

`analyze_query` computes `num_songs = max(3, min(50, duration_minutes // 4))`
(mood_analyzer.py:335-337) with `avg_song_duration = 4`, while
`_curate_playlist` computes `target_count = max(10, min(50, int(duration_minutes / 3.5)))`
(playlist_generator.py:272).  For `0 ≤ d ≤ 600`, `int(d / 3.5)` under IEEE
doubles equals `⌊2d/7⌋`: when `7 ∣ d` the quotient is exact, and otherwise
the true value is at least `1/7` away from any integer while the float error
is below `10⁻¹³`. -/

/-- `num_songs` of `MoodAnalyzer.analyze_query` (mood_analyzer.py:336-337). -/
def num_songs (duration_minutes : Nat) : Nat :=
  max 3 (min 50 (duration_minutes / 4))

/-- `target_count` of `PlaylistGenerator._curate_playlist`
(playlist_generator.py:272). -/
def target_count (duration_minutes : Nat) : Nat :=
  max 10 (min 50 (duration_minutes * 2 / 7))

/-! ## Input validation of the `generate_playlist` tool (claim C9)

`generate_spotify_playlist` (main.py:633-661) validates, in order: empty or
whitespace-only prompt, then `duration_minutes <= 0 or duration_minutes > 600`,
then the authentication state; only afterwards does the pipeline run.
`not prompt or not prompt.strip()` is modelled via stripping ASCII
whitespace from a character list. -/

/-- Python `str.strip()` on a character list. -/
def pyStripChars (cs : List Char) : List Char :=
  ((cs.dropWhile Char.isWhitespace).reverse.dropWhile Char.isWhitespace).reverse

/-- The four mutually exclusive ways a `generate_playlist` call can proceed. -/
inductive PlaylistRequestOutcome where
  | promptError
  | durationError
  | authError
  | pipelineRun
deriving DecidableEq

/-- The user-facing message attached to each early-return outcome
(main.py:643-661). -/
def outcomeMessage : PlaylistRequestOutcome → Option String
  | .promptError => some "Please provide a prompt to generate the playlist."
  | .durationError => some "Duration must be between 1 and 600 minutes."
  | .authError => some "Please authenticate with Spotify first."
  | .pipelineRun => none

/-- Validation dispatch of `generate_spotify_playlist` (main.py:641-678):
the guard order is prompt, then duration, then authentication. -/
def validateGeneratePlaylist (prompt : String) (duration_minutes : Int)
    (authenticated : Bool) : PlaylistRequestOutcome :=
  if (pyStripChars prompt.toList).isEmpty then .promptError
  else if duration_minutes ≤ 0 ∨ duration_minutes > 600 then .durationError
  else if !authenticated then .authError
  else .pipelineRun

/-! ## Track records and deduplication (claims C1, C4, C5)

`SpotifyHandler.search_tracks` (spotify_handler.py:210-220) always builds
dicts with keys name/artist/album/id/uri/popularity; `id` can be `None`
(and Python treats the empty string as falsy in the same way). -/

/-- A track record as produced by the search and recommendation helpers. -/
structure Track where
  name : String
  artist : String
  album : String
  id : Option String
  uri : Option String
  popularity : Nat
deriving DecidableEq

/-- Python truthiness of the `id` field: `None` and `""` are falsy. -/
def idTruthy : Option String → Bool
  | some s => !(s == "")
  | none => false

/-- The identity actually used by `_remove_duplicates`
(playlist_generator.py:378-395): the Spotify id when truthy, otherwise the
exact, case-sensitive string `name + "-" + artist`. -/
def effKey (t : Track) : String :=
  match t.id with
  | some s => if s == "" then t.name ++ "-" ++ t.artist else s
  | none => t.name ++ "-" ++ t.artist

/-- The TrackKey of the specification.  Modelled from the spec:
`lowercase(trim(artist)) + "|" + lowercase(trim(title))` — stated here only
to compare the source's dedup identity against it. -/
def specTrackKey (t : Track) : String :=
  pyLower (String.mk (pyStripChars t.artist.toList)) ++ "|"
    ++ pyLower (String.mk (pyStripChars t.name.toList))

/-- Loop of `PlaylistGenerator._remove_duplicates`
(playlist_generator.py:381-395), with the `seen` set of identifiers made
explicit.  A truthy id already in `seen` matches neither branch of the
`if`/`elif`, so the record is silently dropped. -/
def removeDuplicatesGo : List Track → List String → List Track
  | [], _ => []
  | t :: ts, seen =>
    match t.id with
    | some s =>
      if s == "" then
        let ident := t.name ++ "-" ++ t.artist
        if ident ∈ seen then removeDuplicatesGo ts seen
        else t :: removeDuplicatesGo ts (ident :: seen)
      else
        if s ∈ seen then removeDuplicatesGo ts seen
        else t :: removeDuplicatesGo ts (s :: seen)
    | none =>
      let ident := t.name ++ "-" ++ t.artist
      if ident ∈ seen then removeDuplicatesGo ts seen
      else t :: removeDuplicatesGo ts (ident :: seen)

/-- `PlaylistGenerator._remove_duplicates` (playlist_generator.py:378-395). -/
def removeDuplicates (tracks : List Track) : List Track :=
  removeDuplicatesGo tracks []

/-- Reference first-seen dedup by a key function, stated independently of
the `seen`-set loop. -/
def dedupFirstSeenBy (key : Track → String) : List Track → List Track
  | [] => []
  | t :: ts => t :: dedupFirstSeenBy key (ts.filter (fun u => !(key u == key t)))
termination_by l => l.length
decreasing_by
  simp only [List.length_cons]
  exact Nat.lt_succ_of_le (List.length_filter_le _ _)

/-! ## Curation and selection (claim C4)

`random.shuffle` is modelled by explicit reordering-function parameters;
any hypothesis needed about them (length preservation) is stated at the
theorem.  The Gemini path of `_curate_playlist` calls an external model and
is out of scope (`self.model is None` is the deterministic path modelled
here). -/

/-- Descending comparison on `popularity`, the key of
`sorted(tracks, key=..., reverse=True)` (playlist_generator.py:359); Python
`sorted` with `reverse=True` is stable, as is `List.mergeSort`. -/
def popDescLE (a b : Track) : Bool :=
  b.popularity ≤ a.popularity

/-- `PlaylistGenerator._simple_track_selection`
(playlist_generator.py:351-376).  `int(target_count * 0.7)` equals
`target_count * 7 / 10` in `Nat` for all realistic targets (the float
product of an integer below 2⁵⁰ with the double nearest 0.7 truncates to
the same value). -/
def simpleTrackSelection (shuffleRemaining shuffleSelected : List Track → List Track)
    (tracks : List Track) (targetCount : Nat) : List Track :=
  let sortedTracks := tracks.mergeSort popDescLE
  let popularCount := targetCount * 7 / 10
  let randomCount := targetCount - popularCount
  let selected := sortedTracks.take popularCount
  let remaining := sortedTracks.drop popularCount
  let selected :=
    if !remaining.isEmpty && randomCount > 0 then
      selected ++ (shuffleRemaining remaining).take randomCount
    else selected
  (shuffleSelected selected).take targetCount

/-- `PlaylistGenerator._curate_playlist` (playlist_generator.py:264-281) on
the deterministic path (`self.model is None`): small candidate lists are
only shuffled, larger ones go through `_simple_track_selection`. -/
def curatePlaylist (shuffleSmall shuffleRemaining shuffleSelected : List Track → List Track)
    (tracks : List Track) (duration_minutes : Nat) : List Track :=
  let tc := target_count duration_minutes
  if tracks.length ≤ tc then shuffleSmall tracks
  else simpleTrackSelection shuffleRemaining shuffleSelected tracks tc

/-! ## Track gathering of `create_playlist` (claim C1)

`PlaylistGenerator.create_playlist` steps 2-5 (playlist_generator.py:61-102):
the Spotify search is an external collaborator whose per-query results are
a function parameter (`search_tracks` itself absorbs its exceptions and
returns `[]`, spotify_handler.py:224-226); the recommendation call of step 4
is likewise a parameter (its exceptions are absorbed at the call site,
playlist_generator.py:85-86). -/

/-- `PlaylistGenerator._get_bollywood_fallback_queries`
(playlist_generator.py:130-145). -/
def bollywoodFallbackQueries : List String :=
  ["bollywood hits", "hindi songs", "arijit singh", "shreya ghoshal",
   "atif aslam", "rahat fateh ali khan", "armaan malik", "bollywood romantic",
   "bollywood dance", "latest bollywood", "90s bollywood", "ar rahman"]

/-- The fallback queries chosen at playlist_generator.py:94. -/
def fallbackSearchQueries (prompt : String) : List String :=
  if strContains (pyLower prompt) "bollywood" then bollywoodFallbackQueries
  else ["popular songs", "top hits"]

/-- Step 3 of `create_playlist` (playlist_generator.py:66-71): run every
query, extend the accumulator with each non-empty result. -/
def gatherTracks (search : String → List Track) (queries : List String) : List Track :=
  queries.foldl (fun acc q =>
    let ts := search q
    if ts.isEmpty then acc else acc ++ ts) []

/-- The raised message at playlist_generator.py:102. -/
def noTracksMsg : String :=
  "No tracks found for the given prompt. Please try a different search term."

/-- Steps 3-5 of `PlaylistGenerator.create_playlist`
(playlist_generator.py:65-102): gather per-query results, optionally extend
with seeded recommendations, deduplicate, fall back to the fallback
queries, and raise when even those contribute nothing. -/
def createPlaylistTracks (search : String → List Track)
    (getRecs : List String → List Track) (authenticated : Bool)
    (queries : List String) (prompt : String) : Except String (List Track) :=
  let allTracks := gatherTracks search queries
  let allTracks :=
    if authenticated && !allTracks.isEmpty then
      let seedIds := ((allTracks.take 5).filterMap Track.id).filter (fun s => !(s == ""))
      if seedIds.isEmpty then allTracks else allTracks ++ getRecs seedIds
    else allTracks
  let uniqueTracks := removeDuplicates allTracks
  if uniqueTracks.isEmpty then
    let extended := (fallbackSearchQueries prompt).foldl (fun acc q => acc ++ search q) uniqueTracks
    let unique2 := removeDuplicates extended
    if unique2.isEmpty then .error noTracksMsg
    else .ok unique2
  else .ok uniqueTracks

/-- Popularity-descending orderedness of a track list, as an executable
check (used to state what the spec expects of the selector output). -/
def popSortedDescBool : List Track → Bool
  | [] => true
  | [_] => true
  | a :: b :: rest => (decide (b.popularity ≤ a.popularity)) && popSortedDescBool (b :: rest)

/-! ## Query planning without AI (claim C8)

`PlaylistGenerator._generate_fallback_queries` (playlist_generator.py:224-262)
builds a query list and returns `list(set(queries))[:7]`.  CPython's `set`
iteration order over strings depends on the per-process hash seed
(`PYTHONHASHSEED`), so `list(set(...))` is modelled as an arbitrary
duplicate-free enumeration `setEnum` of the collected queries: any function
satisfying `IsSetEnum` is a legal behaviour of the interpreter. -/

/-- Genre keywords scanned by the planner (playlist_generator.py:243). -/
def genresForQueries : List String :=
  ["pop", "rock", "hip hop", "electronic", "indie", "jazz", "country", "r&b"]

/-- Queries appended on the Bollywood branch (playlist_generator.py:231-239). -/
def bollywoodPromptQueries : List String :=
  ["bollywood hits", "arijit singh", "shreya ghoshal", "atif aslam",
   "hindi songs", "bollywood romantic", "ar rahman"]

/-- Genre loop of the planner (playlist_generator.py:243-247): for each
matching genre, append `"<genre> music"` and `"best <genre>"`. -/
def genreQueryExtension (pl : String) : List String :=
  genresForQueries.foldl (fun acc g =>
    if strContains pl g then acc ++ [g ++ " music", "best " ++ g] else acc) []

/-- Mood `elif` chain of the planner (playlist_generator.py:249-257). -/
def moodQueryExtension (pl : String) : List String :=
  if ["happy", "upbeat", "energetic", "party"].any (fun w => strContains pl w) then
    ["upbeat songs", "dance music", "party hits"]
  else if ["sad", "emotional", "melancholy"].any (fun w => strContains pl w) then
    ["sad songs", "ballads", "emotional music"]
  else if ["chill", "relax", "calm"].any (fun w => strContains pl w) then
    ["chill music", "relaxing songs", "ambient"]
  else if ["workout", "gym", "exercise"].any (fun w => strContains pl w) then
    ["workout music", "high energy", "pump up"]
  else []

/-- The full query list accumulated by `_generate_fallback_queries` before
the `list(set(...))[:7]` step (playlist_generator.py:226-260). -/
def buildFallbackQueryList (prompt : String) : List String :=
  let pl := pyLower prompt
  if strContains pl "bollywood" || strContains pl "hindi" || strContains pl "indian" then
    prompt :: bollywoodPromptQueries
  else
    prompt :: (genreQueryExtension pl ++ moodQueryExtension pl
      ++ ["popular music", "trending songs"])

/-- `_generate_fallback_queries` with the interpreter's `list(set(...))`
enumeration behaviour as an explicit parameter. -/
def generateFallbackQueries (setEnum : List String → List String)
    (prompt : String) : List String :=
  (setEnum (buildFallbackQueryList prompt)).take 7

/-- What any CPython `list(set(...))` realisation satisfies: a duplicate-free
enumeration of exactly the input's elements. -/
def IsSetEnum (e : List String → List String) : Prop :=
  ∀ l, (e l).Nodup ∧ ∀ x, x ∈ e l ↔ x ∈ l

/-- One legal enumeration behaviour: keep the first occurrence of each
string, preserving first-seen order. -/
def dedupKeepFirstAux : List String → List String → List String
  | [], _ => []
  | x :: xs, seen =>
    if x ∈ seen then dedupKeepFirstAux xs seen
    else x :: dedupKeepFirstAux xs (x :: seen)

def dedupKeepFirst (l : List String) : List String :=
  dedupKeepFirstAux l []

/-- Another legal enumeration behaviour: the same elements in the opposite
order. -/
def revDedup (l : List String) : List String :=
  (dedupKeepFirst l).reverse

/-! ## Fallback mood classification (claims C2, C3)

`MoodAnalyzer._fallback_analysis` (mood_analyzer.py:186-213) is a pure
keyword scan over the raw query; it never consults the emoji list.  Python
floats are modelled over `ℚ` (0.6 = 3/5, 0.8 = 4/5, ...). -/

/-- Result record of `_fallback_analysis`. -/
structure FallbackResult where
  mood : String
  emotion : String
  sentiment : String
  confidence : ℚ
deriving DecidableEq

/-- `mood_keywords` of `_fallback_analysis` (mood_analyzer.py:192-200), in
dict insertion order — the scan breaks at the first matching mood. -/
def mood_keywords : List (String × List String) :=
  [("happy", ["happy", "joy", "cheerful", "upbeat", "good", "great", "amazing"]),
   ("sad", ["sad", "depressed", "down", "blue", "melancholy", "cry"]),
   ("angry", ["angry", "mad", "furious", "rage", "hate", "annoyed"]),
   ("excited", ["excited", "thrilled", "pumped", "energetic", "party"]),
   ("calm", ["calm", "peaceful", "relax", "chill", "serene", "quiet"]),
   ("romantic", ["love", "romantic", "valentine", "date", "heart"]),
   ("nostalgic", ["nostalgic", "memories", "old", "past", "remember"])]

/-- The keyword loop of `_fallback_analysis` (mood_analyzer.py:202-206). -/
def detectMood (textLower : String) : String :=
  match mood_keywords.find? (fun p => p.2.any (fun k => strContains textLower k)) with
  | some p => p.1
  | none => "neutral"

/-- `MoodAnalyzer._fallback_analysis` (mood_analyzer.py:186-213). -/
def fallbackAnalysis (query : String) : FallbackResult :=
  let detected := detectMood (pyLower query)
  { mood := detected
    emotion := detected
    sentiment :=
      if detected ∈ (["happy", "excited", "romantic"] : List String) then "positive"
      else "neutral"
    confidence := 3/5 }

/-- `SentimentAnalyzer.emoji_sentiments` (sentiment_analyzer.py:84-112), in
dict-literal order.  The key 🤯 appears under both fear and surprise in the
source literal; a Python dict keeps the later entry, which `emojiLookup`
mirrors by searching the reversed list. -/
def emoji_sentiments : List (String × String) :=
  [("😊", "joy"), ("😂", "joy"), ("😍", "joy"), ("🥰", "joy"), ("😄", "joy"),
   ("😃", "joy"), ("😁", "joy"), ("😆", "joy"), ("🤣", "joy"), ("😇", "joy"),
   ("🤩", "joy"), ("😎", "joy"), ("🔥", "joy"), ("💖", "joy"), ("❤️", "joy"),
   ("💕", "joy"), ("💯", "joy"), ("🎉", "joy"), ("🎊", "joy"), ("✨", "joy"),
   ("🌟", "joy"), ("⭐", "joy"), ("🎵", "joy"), ("🎶", "joy"), ("🎸", "joy"),
   ("😢", "sadness"), ("😭", "sadness"), ("😔", "sadness"), ("😞", "sadness"),
   ("😟", "sadness"), ("😦", "sadness"), ("😧", "sadness"), ("😿", "sadness"),
   ("💔", "sadness"), ("🖤", "sadness"), ("⛈️", "sadness"), ("🌧️", "sadness"),
   ("😡", "anger"), ("😠", "anger"), ("🤬", "anger"), ("😤", "anger"),
   ("👿", "anger"), ("💢", "anger"), ("🔴", "anger"), ("💀", "anger"),
   ("😨", "fear"), ("😰", "fear"), ("😱", "fear"), ("😖", "fear"),
   ("😵", "fear"), ("🤯", "fear"), ("💊", "fear"), ("⚡", "fear"),
   ("😳", "surprise"), ("😲", "surprise"), ("🤯", "surprise"), ("😵‍💫", "surprise"),
   ("🤔", "surprise"), ("🧐", "surprise"), ("👀", "surprise"),
   ("😐", "neutral"), ("😑", "neutral"), ("🤷", "neutral"), ("🙂", "neutral"),
   ("😌", "neutral"), ("🎧", "neutral"), ("🎤", "neutral")]

/-- Lookup in `emoji_sentiments` with Python dict-literal last-wins
semantics. -/
def emojiLookup (k : String) : Option String :=
  emoji_sentiments.reverse.lookup k

/-! ## The mood/confidence merge of `analyze_query` (claim C3)

mood_analyzer.py:292-328: if the AI pipelines succeeded, `text_analysis`
holds the model's sentiment and emotion dicts and the emotion's mapped mood
is adopted with its raw score as confidence; otherwise the
`_fallback_analysis` record is used verbatim.  The emoji signal only feeds
energy/valence. -/

/-- The two shapes `text_analysis` can take (the `isinstance(..., dict)`
dispatch at mood_analyzer.py:293). -/
inductive TextAnalysis where
  | ai (sentimentLabel emotionLabel : String) (emotionScore : ℚ)
  | fb (r : FallbackResult)

/-- Mood/energy/valence/confidence result of the merge. -/
structure QueryAnalysis where
  mood : String
  confidence : ℚ
  energy : ℚ
  valence : ℚ
deriving DecidableEq

/-- `mood_mapping` (mood_analyzer.py:307-317). -/
def mood_mapping : List (String × String) :=
  [("joy", "happy"), ("happiness", "happy"), ("excitement", "excited"),
   ("sadness", "sad"), ("grief", "sad"), ("disappointment", "sad"),
   ("anger", "angry"), ("annoyance", "angry"), ("rage", "angry"),
   ("fear", "anxious"), ("nervousness", "anxious"), ("worry", "anxious"),
   ("surprise", "excited"), ("amazement", "excited"), ("wonder", "excited"),
   ("disgust", "neutral"), ("boredom", "neutral"),
   ("love", "romantic"), ("caring", "romantic"), ("desire", "romantic"),
   ("calm", "calm"), ("peaceful", "calm"), ("relaxed", "calm"),
   ("energetic", "energetic"), ("enthusiasm", "energetic")]

/-- `high_energy_emotions` (mood_analyzer.py:302). -/
def high_energy_emotions : List String :=
  ["joy", "excitement", "anger", "happy", "excited"]

/-- The merge at mood_analyzer.py:292-328. -/
def processTextAnalysis (ta : TextAnalysis) (emojiValence emojiEnergy : ℚ) :
    QueryAnalysis :=
  match ta with
  | .ai sl el score =>
    let textValence : ℚ :=
      if sl = "positive" then 4/5 else if sl = "negative" then 1/5 else 1/2
    let combinedValence := textValence * (3/5) + emojiValence * (2/5)
    let emotionEnergy : ℚ :=
      if (pyLower el) ∈ high_energy_emotions then 4/5 else 2/5
    let combinedEnergy := emotionEnergy * (3/5) + emojiEnergy * (2/5)
    { mood := (mood_mapping.lookup (pyLower el)).getD "neutral"
      confidence := score
      energy := combinedEnergy
      valence := combinedValence }
  | .fb r =>
    let textValence : ℚ :=
      if r.sentiment = "positive" then 4/5
      else if r.sentiment = "negative" then 1/5 else 1/2
    { mood := r.mood
      confidence := r.confidence
      energy := 1/2 + emojiEnergy * (1/2)
      valence := textValence * (3/5) + emojiValence * (2/5) }

/-! ## The rule-based sentiment analyzer (claim C10)

`SentimentAnalyzer` (sentiment_analyzer.py) and `analyze_prompt`
(main.py:596-630).  The regex fragments are embedded with their exact
semantics for ASCII text: `\w` is letter/digit/underscore, `\s` is
whitespace, `\b[A-Z]{3,}\b` matches exactly the maximal word-character runs
that consist of at least three uppercase letters, and `(.)\1{2,}` matches
once per maximal run of at least three equal non-newline characters. -/

/-- Python `\w` on ASCII. -/
def isWordChar (c : Char) : Bool :=
  c.isAlpha || c.isDigit || c == '_'

/-- Does a match of `http\S+|www\S+|https\S+` start at this position?
(`https\S+` is subsumed by `http\S+`.)  The `\S+` needs at least one
non-space character after the literal. -/
def urlMatchAt (cs : List Char) : Bool :=
  (startsWithChars "http" cs &&
    (match cs.drop 4 with | d :: _ => !d.isWhitespace | [] => false))
  || (startsWithChars "www" cs &&
    (match cs.drop 3 with | d :: _ => !d.isWhitespace | [] => false))

/-- `re.sub(r'http\S+|www\S+|https\S+', '', text)`
(sentiment_analyzer.py:206): each leftmost match removes the maximal
non-whitespace run it starts; `skipping` records that the scanner is inside
such a run (it ends at the next whitespace character, which is kept). -/
def stripUrlsGo (skipping : Bool) : List Char → List Char
  | [] => []
  | c :: cs =>
    if skipping then
      if c.isWhitespace then c :: stripUrlsGo false cs
      else stripUrlsGo true cs
    else
      if urlMatchAt (c :: cs) then stripUrlsGo true cs
      else c :: stripUrlsGo false cs

def stripUrls (cs : List Char) : List Char :=
  stripUrlsGo false cs

/-- `re.sub(r'\s+', ' ', text)` (sentiment_analyzer.py:208); `inWs` records
that the previous character belonged to a whitespace run whose single
replacement space was already emitted. -/
def collapseWsGo (inWs : Bool) : List Char → List Char
  | [] => []
  | c :: cs =>
    if c.isWhitespace then
      if inWs then collapseWsGo true cs else ' ' :: collapseWsGo true cs
    else c :: collapseWsGo false cs

def collapseWs (cs : List Char) : List Char :=
  collapseWsGo false cs

/-- `SentimentAnalyzer._preprocess_text` (sentiment_analyzer.py:203-209). -/
def preprocessText (text : String) : String :=
  String.mk (pyStripChars (collapseWs (stripUrls text.toList)))

/-- Python `str.split()` with no argument: split on whitespace runs,
dropping empty pieces; `cur` is the reversed current word. -/
def pyWordsGo (cur : List Char) : List Char → List String
  | [] => if cur.isEmpty then [] else [String.mk cur.reverse]
  | c :: cs =>
    if c.isWhitespace then
      if cur.isEmpty then pyWordsGo [] cs
      else String.mk cur.reverse :: pyWordsGo [] cs
    else pyWordsGo (c :: cur) cs

def pyWords (cs : List Char) : List String :=
  pyWordsGo [] cs

/-- Maximal `\w+` runs of a text; `cur` is the reversed current run. -/
def wordRunsGo (cur : List Char) : List Char → List String
  | [] => if cur.isEmpty then [] else [String.mk cur.reverse]
  | c :: cs =>
    if isWordChar c then wordRunsGo (c :: cur) cs
    else if cur.isEmpty then wordRunsGo [] cs
    else String.mk cur.reverse :: wordRunsGo [] cs

def wordRuns (cs : List Char) : List String :=
  wordRunsGo [] cs

/-- `re.findall(r'\b[A-Z]{3,}\b', text)`: the maximal word-character runs
made of at least three uppercase letters. -/
def capsWords (text : String) : List String :=
  (wordRuns text.toList).filter
    (fun w => decide (w.length ≥ 3) && w.toList.all (fun c => 'A' ≤ c && c ≤ 'Z'))

/-- Number of matches of `(.)\1{2,}`: one per maximal run of at least three
equal non-newline characters (`.` and the backreference never match a
newline without DOTALL).  `prev`/`runLen` describe the current run. -/
def countRepeatRunsGo (prev : Char) (runLen : Nat) : List Char → Nat
  | [] => if prev ≠ '\n' ∧ runLen ≥ 3 then 1 else 0
  | c :: cs =>
    if c == prev then countRepeatRunsGo prev (runLen + 1) cs
    else (if prev ≠ '\n' ∧ runLen ≥ 3 then 1 else 0) + countRepeatRunsGo c 1 cs

def countRepeatRuns : List Char → Nat
  | [] => 0
  | c :: cs => countRepeatRunsGo c 1 cs

/-- `text.count(ch)` for a single character. -/
def countChar (ch : Char) (text : String) : Nat :=
  (text.toList.filter (fun c => c == ch)).length

/-- Python `str.isupper()` on ASCII: at least one cased character and every
cased character uppercase. -/
def pyIsUpperWord (w : String) : Bool :=
  (w.toList.any (fun c => c.isAlpha)) && (w.toList.all (fun c => !c.isAlpha || c.isUpper))

/-- The six-key emotion-score dict used throughout the analyzer. -/
structure Scores where
  joy : ℚ
  sadness : ℚ
  anger : ℚ
  fear : ℚ
  surprise : ℚ
  neutral : ℚ
deriving DecidableEq

def Scores.zero : Scores := ⟨0, 0, 0, 0, 0, 0⟩

/-- The dict `{"neutral": 1.0}` extended to all six keys. -/
def Scores.neutralOne : Scores := ⟨0, 0, 0, 0, 0, 1⟩

/-- `scores[key] += v` with Python dict semantics: a key outside the six
initialised ones raises `KeyError` — the bug triggered by every entry of
`genre_sentiment_mapping`, all of which carry an "energy" key. -/
def Scores.addKey (s : Scores) (k : String) (v : ℚ) : Except String Scores :=
  if k = "joy" then .ok { s with joy := s.joy + v }
  else if k = "sadness" then .ok { s with sadness := s.sadness + v }
  else if k = "anger" then .ok { s with anger := s.anger + v }
  else if k = "fear" then .ok { s with fear := s.fear + v }
  else if k = "surprise" then .ok { s with surprise := s.surprise + v }
  else if k = "neutral" then .ok { s with neutral := s.neutral + v }
  else .error ("KeyError: " ++ k)

/-- Sum of the six values (the order of `dict.items()` iteration does not
matter for a sum). -/
def scoresItemsSum (g : Scores) : ℚ :=
  g.joy + g.sadness + g.anger + g.fear + g.surprise + g.neutral

/-- Pointwise `s[k] += g[k] * c` over all six keys. -/
def addScaled (s g : Scores) (c : ℚ) : Scores :=
  { joy := s.joy + g.joy * c
    sadness := s.sadness + g.sadness * c
    anger := s.anger + g.anger * c
    fear := s.fear + g.fear * c
    surprise := s.surprise + g.surprise * c
    neutral := s.neutral + g.neutral * c }

/-- `positive_keywords` (sentiment_analyzer.py:12-18). -/
def positive_keywords : List String :=
  ["happy", "joy", "love", "amazing", "awesome", "great", "wonderful",
   "fantastic", "excellent", "good", "nice", "beautiful", "perfect",
   "excited", "thrilled", "delighted", "cheerful", "upbeat", "energetic",
   "motivational", "inspiring", "uplifting", "positive", "optimistic",
   "celebrate", "party", "dance", "fun", "laugh", "smile", "bright"]

/-- `negative_keywords` (sentiment_analyzer.py:20-26). -/
def negative_keywords : List String :=
  ["sad", "angry", "hate", "terrible", "awful", "bad", "horrible",
   "depressed", "disappointed", "frustrated", "annoyed", "upset",
   "crying", "tears", "broken", "hurt", "pain", "lonely", "dark",
   "gloomy", "melancholy", "heartbreak", "grief", "sorrow", "down",
   "tired", "exhausted", "stressed", "worried", "anxious", "scared"]

/-- `anger_keywords` (sentiment_analyzer.py:28-32). -/
def anger_keywords : List String :=
  ["angry", "rage", "furious", "mad", "pissed", "irritated", "annoyed",
   "frustrated", "aggressive", "hostile", "violent", "fight", "argue",
   "hate", "disgusted", "outraged", "livid", "intense", "fierce"]

/-- `fear_keywords` (sentiment_analyzer.py:34-38). -/
def fear_keywords : List String :=
  ["scared", "afraid", "terrified", "anxious", "worried", "nervous",
   "panic", "fear", "frightened", "overwhelmed", "stressed", "tense",
   "uneasy", "uncomfortable", "insecure", "vulnerable", "helpless"]

/-- `surprise_keywords` (sentiment_analyzer.py:40-44). -/
def surprise_keywords : List String :=
  ["surprised", "shocked", "amazed", "astonished", "wow", "unexpected",
   "sudden", "bizarre", "strange", "weird", "curious", "interesting",
   "unique", "different", "unusual", "remarkable", "extraordinary"]

/-- `genre_sentiment_mapping` (sentiment_analyzer.py:60-81), in dict order;
every genre's map carries an "energy" key, which `Scores.addKey` rejects. -/
def genre_sentiment_mapping : List (String × List (String × ℚ)) :=
  [("rock", [("anger", 2/5), ("energy", 4/5)]),
   ("metal", [("anger", 3/5), ("energy", 9/10)]),
   ("pop", [("joy", 3/5), ("energy", 7/10)]),
   ("jazz", [("neutral", 3/5), ("energy", 2/5)]),
   ("classical", [("neutral", 1/2), ("energy", 3/10)]),
   ("hip hop", [("neutral", 2/5), ("energy", 7/10)]),
   ("rap", [("anger", 3/10), ("energy", 4/5)]),
   ("blues", [("sadness", 7/10), ("energy", 3/10)]),
   ("country", [("neutral", 1/2), ("energy", 2/5)]),
   ("electronic", [("neutral", 2/5), ("energy", 4/5)]),
   ("edm", [("joy", 1/2), ("energy", 9/10)]),
   ("ambient", [("neutral", 4/5), ("energy", 1/5)]),
   ("folk", [("neutral", 3/5), ("energy", 3/10)]),
   ("reggae", [("joy", 2/5), ("energy", 1/2)]),
   ("funk", [("joy", 3/5), ("energy", 7/10)]),
   ("soul", [("neutral", 1/2), ("energy", 1/2)]),
   ("indie", [("neutral", 3/5), ("energy", 2/5)]),
   ("punk", [("anger", 1/2), ("energy", 9/10)]),
   ("lofi", [("neutral", 7/10), ("energy", 1/5)]),
   ("chill", [("neutral", 4/5), ("energy", 1/5)])]

/-- `SentimentAnalyzer._analyze_genre_context` (sentiment_analyzer.py:211-220):
for every genre substring-matched in the text, fold its sentiment map into
the six-key dict; the "energy" key raises `KeyError`. -/
def analyzeGenreContext (text : String) : Except String Scores :=
  genre_sentiment_mapping.foldlM (fun scores gm =>
    if strContains text gm.1 then
      gm.2.foldlM (fun s kv => s.addKey kv.1 kv.2) scores
    else pure scores) Scores.zero

/-- One iteration of the keyword loop (sentiment_analyzer.py:132-154):
emphasis weight, then the positive/negative/anger/fear/surprise `elif`
chain (on words of the already-lowered text, the emphasis branch is never
taken; it is kept for fidelity). -/
def keywordStep (sw : Scores × ℚ) (w : String) : Scores × ℚ :=
  let weight : ℚ := if pyIsUpperWord w && decide (w.length > 2) then 2 else 1
  let s := sw.1
  let tw := sw.2
  if positive_keywords.contains w then ({ s with joy := s.joy + weight }, tw + weight)
  else if negative_keywords.contains w then
    ({ s with sadness := s.sadness + weight }, tw + weight)
  else if anger_keywords.contains w then ({ s with anger := s.anger + weight }, tw + weight)
  else if fear_keywords.contains w then ({ s with fear := s.fear + weight }, tw + weight)
  else if surprise_keywords.contains w then
    ({ s with surprise := s.surprise + weight }, tw + weight)
  else (s, tw)

/-- `SentimentAnalyzer._analyze_punctuation` (sentiment_analyzer.py:222-257),
applied to the *original* text. -/
def analyzePunctuation (text : String) : Scores :=
  let s0 : Scores := Scores.zero
  let ex : Nat := countChar '!' text
  let s1 := if ex > 0 then
      { s0 with joy := s0.joy + (ex : ℚ) * (1/5), anger := s0.anger + (ex : ℚ) * (1/10) }
    else s0
  let qm : Nat := countChar '?' text
  let s2 := if qm > 0 then { s1 with surprise := s1.surprise + (qm : ℚ) * (1/10) } else s1
  let caps := capsWords text
  let s3 :=
    if caps.isEmpty then s2
    else
      let ci : ℚ := (caps.length : ℚ) * (3/10)
      if caps.any (fun w => positive_keywords.contains (pyLower w)) then
        { s2 with joy := s2.joy + ci }
      else if caps.any (fun w => anger_keywords.contains (pyLower w)) then
        { s2 with anger := s2.anger + ci }
      else
        { s2 with surprise := s2.surprise + ci * (1/2), joy := s2.joy + ci * (3/10) }
  let rep := countRepeatRuns (pyLower text).toList
  if rep > 0 then
    let e : ℚ := (rep : ℚ) * (1/10)
    { s3 with joy := s3.joy + e * (3/5), surprise := s3.surprise + e * (2/5) }
  else s3

/-- `SentimentAnalyzer.analyze_sentiment` (sentiment_analyzer.py:114-183).
The genre-context call can raise `KeyError: energy`; everything else is
total.  `genre_influence.items()` always yields six entries, so the loop at
lines 158-160 adds `score * 2` per key and `2` per entry (twelve in total)
to the weight. -/
def analyzeSentiment (text : String) : Except String Scores := do
  let cleaned := preprocessText text
  if (pyStripChars cleaned.toList).isEmpty then
    return Scores.neutralOne
  let textLower := pyLower cleaned
  let sw := (pyWords textLower.toList).foldl keywordStep (Scores.zero, 0)
  let g ← analyzeGenreContext textLower
  let s2 := addScaled sw.1 g 2
  let tw2 := sw.2 + 12
  let p := analyzePunctuation text
  let s3 := addScaled s2 p 1
  let tw3 := tw2 + scoresItemsSum p
  let s4tw :=
    if tw3 = 0 then (Scores.neutralOne, (1 : ℚ))
    else ({ s3 with neutral := s3.neutral + 1/10 }, tw3 + 1/10)
  return { joy := s4tw.1.joy / s4tw.2
           sadness := s4tw.1.sadness / s4tw.2
           anger := s4tw.1.anger / s4tw.2
           fear := s4tw.1.fear / s4tw.2
           surprise := s4tw.1.surprise / s4tw.2
           neutral := s4tw.1.neutral / s4tw.2 }

/-- `sentiment_counts[label] += 1`; the labels produced by the emoji table
are exactly the six initialised keys, so no `KeyError` can occur here. -/
def Scores.addCount (s : Scores) (k : String) : Scores :=
  if k = "joy" then { s with joy := s.joy + 1 }
  else if k = "sadness" then { s with sadness := s.sadness + 1 }
  else if k = "anger" then { s with anger := s.anger + 1 }
  else if k = "fear" then { s with fear := s.fear + 1 }
  else if k = "surprise" then { s with surprise := s.surprise + 1 }
  else { s with neutral := s.neutral + 1 }

/-- `SentimentAnalyzer.analyze_emojis` (sentiment_analyzer.py:185-201); the
per-character test against `emoji.EMOJI_DATA` is the external emoji
database, passed as a parameter. -/
def analyzeEmojis (isEmoji : Char → Bool) (text : String) : Scores :=
  let found := text.toList.filter isEmoji
  if found.isEmpty then Scores.neutralOne
  else
    let counts := found.foldl
      (fun s c => s.addCount ((emojiLookup (String.mk [c])).getD "neutral")) Scores.zero
    let total := scoresItemsSum counts
    if 0 < total then
      { joy := counts.joy / total, sadness := counts.sadness / total,
        anger := counts.anger / total, fear := counts.fear / total,
        surprise := counts.surprise / total, neutral := counts.neutral / total }
    else Scores.neutralOne

/-! ## `utils.parse_duration` and `utils.detect_language` (claim C10) -/

def hourUnitStrict (cs : List Char) : Bool := startsWithChars "hour" cs

def hrUnitStrict (cs : List Char) : Bool := startsWithChars "hr" cs

def minuteUnitStrict (cs : List Char) : Bool := startsWithChars "minute" cs

def minUnitStrict (cs : List Char) : Bool := startsWithChars "min" cs

/-- Unit of `(\d+)\s*m(?!\w)` (utils.py:26): an `m` not followed by a word
character. -/
def mNoWordUnit : List Char → Bool
  | 'm' :: rest =>
    match rest with
    | [] => true
    | d :: _ => !isWordChar d
  | _ => false

/-- `duration_patterns` of `utils.parse_duration` (utils.py:21-27). -/
def utils_duration_patterns : List ((List Char → Bool) × Nat) :=
  [(hourUnitStrict, 60), (hrUnitStrict, 60), (minuteUnitStrict, 1),
   (minUnitStrict, 1), (mNoWordUnit, 1)]

/-- `duration_hints` of `utils.parse_duration` (utils.py:35-47). -/
def duration_hints : List (String × Nat) :=
  [("short", 20), ("quick", 15), ("brief", 10), ("long", 90), ("extended", 120),
   ("marathon", 180), ("workout", 45), ("commute", 30), ("study", 60),
   ("party", 120), ("background", 90)]

/-- `utils.parse_duration` (utils.py:8-53): explicit patterns first, then
contextual hints, else `None`. -/
def parse_duration (text : String) : Option Nat :=
  let cs := (pyLower text).toList
  match utils_duration_patterns.findSome?
      (fun pm => (reSearchNumUnit pm.1 cs).map (fun n => n * pm.2)) with
  | some v => some v
  | none =>
    match duration_hints.find? (fun h => strContains (pyLower text) h.1) with
    | some h => some h.2
    | none => none

/-- The cleaning step of `utils.detect_language` (utils.py:67-68):
`re.sub(r'[^\w\s]', ' ', text)`, whitespace normalisation, strip. -/
def cleanForDetect (text : String) : String :=
  String.mk (pyStripChars (collapseWs
    (text.toList.map (fun c => if isWordChar c || c.isWhitespace then c else ' '))))

/-- `utils.detect_language` (utils.py:55-77): the langdetect call is the
external `detector`; any failure, and any text cleaning to fewer than three
characters, yields "en". -/
def detect_language (detector : String → Except String String) (text : String) : String :=
  let clean := cleanForDetect text
  if clean.length < 3 then "en"
  else
    match detector clean with
    | .ok lang => lang
    | .error _ => "en"

/-! ## `analyze_prompt` (claim C10) -/

/-- The value types appearing in the `analyze_prompt` result dict. -/
inductive PValue where
  | dict (s : Scores)
  | str (v : String)
  | onat (v : Option Nat)
deriving DecidableEq

/-- `analyze_prompt` (main.py:596-630) as the association list it returns:
the outer `try` turns any exception from `analyze_sentiment` — including the
genre-context `KeyError` — into the neutral default dict, which additionally
carries `analysis_error`. -/
def analyzePrompt (detector : String → Except String String)
    (isEmoji : Char → Bool) (prompt : String) : List (String × PValue) :=
  match analyzeSentiment prompt with
  | .ok scores =>
      [("sentiment", .dict scores),
       ("language", .str (detect_language detector prompt)),
       ("duration_hint", .onat (parse_duration prompt)),
       ("emoji_sentiment", .dict (analyzeEmojis isEmoji prompt)),
       ("raw_prompt", .str prompt)]
  | .error e =>
      [("sentiment", .dict Scores.neutralOne),
       ("language", .str "en"),
       ("duration_hint", .onat none),
       ("emoji_sentiment", .dict Scores.neutralOne),
       ("raw_prompt", .str prompt),
       ("analysis_error", .str e)]

end PlaylistMCP

namespace PlaylistMCP

/-- Claim C6: for every input text, duration extraction tries the patterns in
order hours (n*60), then minutes (n), then songs/tracks (n*4); the first
matching pattern wins and the default is 30 minutes.  The conjuncts
exercise each arm concretely; the last shows the hour pattern beating a
songs phrase that occurs earlier in the text, i.e. pattern order (not text
order) decides. -/
theorem extract_duration_pattern_order :
    (∀ text : String,
      extract_duration text =
        match reSearchNumUnit hourUnit (pyLower text).toList with
        | some n => n * 60
        | none =>
          match reSearchNumUnit minuteUnit (pyLower text).toList with
          | some n => n
          | none =>
            match reSearchNumUnit songUnit (pyLower text).toList with
            | some n => n * 4
            | none => 30)
    ∧ extract_duration "2 hours of jazz" = 120
    ∧ extract_duration "a 40 minutes playlist of hindi songs" = 40
    ∧ extract_duration "5 songs please" = 20
    ∧ extract_duration "some happy music" = 30
    ∧ extract_duration "5 songs for 2 hours" = 120 := by
  refine ⟨fun text => ?_, by decide, by decide, by decide, by decide, by decide⟩
  simp only [extract_duration, duration_patterns, firstDurationMatch]

/-- Claim C7, counterexample: the clamp parameters are *not* used
consistently across the pipeline.  For the 40-minute scenario the analyzer
computes `song_count = 10` (average 4, bounds [3,50]) while the curation
stage computes `target_count = 11` (average 3.5, bounds [10,50]). -/
theorem song_count_clamp_inconsistent_cx :
    num_songs 40 = 10 ∧ target_count 40 = 11 ∧ num_songs 40 ≠ target_count 40 := by
  refine ⟨by decide, by decide, by decide⟩

/-- Claim C7, amended: the Intent satisfies
`song_count = max(3, min(50, duration_minutes / 4))` — avg song length 4 and
clamp bounds [3,50], so 40 minutes yields 10 songs and in the unclamped
range the count is exactly `duration / 4` — but the curation stage
independently recomputes its own target with avg 3.5 and bounds [10,50]
(40 minutes yields 11 there). -/
theorem song_count_clamp (d : Nat) :
    num_songs d = max 3 (min 50 (d / 4))
    ∧ 3 ≤ num_songs d
    ∧ num_songs d ≤ 50
    ∧ (12 ≤ d → d ≤ 200 → num_songs d = d / 4)
    ∧ num_songs 40 = 10
    ∧ target_count 40 = 11 := by
  refine ⟨rfl, ?_, ?_, ?_, by decide, by decide⟩
  · exact Nat.le_max_left ..
  · simp only [num_songs]
    omega
  · intro h12 h200
    simp only [num_songs]
    omega

/-- Claim C7, witness instantiating the amended theorem at the 40-minute
scenario. -/
theorem song_count_clamp_witness :
    num_songs 40 = max 3 (min 50 (40 / 4)) ∧ num_songs 40 = 40 / 4 :=
  ⟨(song_count_clamp 40).1, (song_count_clamp 40).2.2.2.1 (by decide) (by decide)⟩

/-- Claim C9, counterexample: with an empty prompt *and* an out-of-range
duration, the call returns the prompt error, not the duration error, so
the claim's universal statement fails at `prompt = ""`, `duration = 0`. -/
theorem duration_validation_cx :
    validateGeneratePlaylist "" 0 true = .promptError
    ∧ PlaylistRequestOutcome.promptError ≠ .durationError
    ∧ outcomeMessage (validateGeneratePlaylist "" 0 true)
        ≠ some "Duration must be between 1 and 600 minutes." := by
  refine ⟨by decide, by decide, by decide⟩

/-- Claim C9, amended: for every call with a non-empty, non-whitespace
prompt and `duration_minutes ≤ 0` or `> 600`, the call returns the error
stating that duration must be between 1 and 600 minutes, and the pipeline
is not run; with an empty prompt the prompt error takes precedence. -/
theorem duration_validation (prompt : String) (d : Int) (auth : Bool)
    (hPrompt : ¬ (pyStripChars prompt.toList).isEmpty)
    (hDur : d ≤ 0 ∨ d > 600) :
    validateGeneratePlaylist prompt d auth = .durationError
    ∧ validateGeneratePlaylist prompt d auth ≠ .pipelineRun
    ∧ outcomeMessage (validateGeneratePlaylist prompt d auth)
        = some "Duration must be between 1 and 600 minutes." := by
  have h : validateGeneratePlaylist prompt d auth = .durationError := by
    simp only [validateGeneratePlaylist, hPrompt, if_false, hDur, if_true]
    simp [hPrompt, hDur]
  refine ⟨h, by simp [h], by simp [h, outcomeMessage]⟩

/-- Claim C9, witness: the amended theorem applied at a concrete valid
prompt and the out-of-range duration 601. -/
theorem duration_validation_witness :
    validateGeneratePlaylist "workout music" 601 false = .durationError :=
  (duration_validation "workout music" 601 false (by decide) (by decide)).1

/-! ### Helper lemmas: the `seen`-set loop equals first-seen dedup by `effKey` -/

theorem removeDuplicatesGo_cons_effKey (t : Track) (ts : List Track) (seen : List String) :
    removeDuplicatesGo (t :: ts) seen =
      if effKey t ∈ seen then removeDuplicatesGo ts seen
      else t :: removeDuplicatesGo ts (effKey t :: seen) := by
  rcases h : t.id with _ | s
  · simp only [removeDuplicatesGo, effKey, h]
  · by_cases hs : s == ""
    · simp only [removeDuplicatesGo, effKey, h, hs, if_pos]
    · simp only [removeDuplicatesGo, effKey, h, hs]
      simp

theorem dedupFirstSeenBy_nil (key : Track → String) :
    dedupFirstSeenBy key [] = [] := by
  rw [dedupFirstSeenBy.eq_def]

theorem dedupFirstSeenBy_cons (key : Track → String) (t : Track) (ts : List Track) :
    dedupFirstSeenBy key (t :: ts)
      = t :: dedupFirstSeenBy key (ts.filter (fun u => !(key u == key t))) := by
  rw [dedupFirstSeenBy.eq_def]

theorem removeDuplicatesGo_eq_dedup (ts : List Track) (seen : List String) :
    removeDuplicatesGo ts seen
      = dedupFirstSeenBy effKey (ts.filter (fun t => !decide (effKey t ∈ seen))) := by
  induction ts generalizing seen with
  | nil => simp [removeDuplicatesGo, dedupFirstSeenBy_nil]
  | cons t ts ih =>
    rw [removeDuplicatesGo_cons_effKey]
    by_cases h : effKey t ∈ seen
    · rw [if_pos h, List.filter_cons]
      have hb : (!decide (effKey t ∈ seen)) = false := by simp [h]
      rw [hb]
      simpa using ih seen
    · rw [if_neg h, List.filter_cons]
      have hb : (!decide (effKey t ∈ seen)) = true := by simp [h]
      rw [hb]
      simp only [if_pos]
      rw [dedupFirstSeenBy_cons]
      congr 1
      rw [ih (effKey t :: seen), List.filter_filter]
      congr 1
      apply List.filter_congr
      intro x _
      by_cases h1 : effKey x = effKey t <;> by_cases h2 : effKey x ∈ seen <;>
        simp [h1, h2]

theorem removeDuplicates_eq_dedup (ts : List Track) :
    removeDuplicates ts = dedupFirstSeenBy effKey ts := by
  rw [removeDuplicates, removeDuplicatesGo_eq_dedup]
  congr 1
  simp

theorem dedupFirstSeenBy_sublist (key : Track → String) (l : List Track) :
    (dedupFirstSeenBy key l).Sublist l := by
  induction l using dedupFirstSeenBy.induct key with
  | case1 => simp [dedupFirstSeenBy_nil]
  | case2 t ts ih =>
    rw [dedupFirstSeenBy_cons]
    exact List.Sublist.cons₂ t (ih.trans (List.filter_sublist ts))

theorem dedupFirstSeenBy_nodup_keys (key : Track → String) (l : List Track) :
    ((dedupFirstSeenBy key l).map key).Nodup := by
  induction l using dedupFirstSeenBy.induct key with
  | case1 => simp [dedupFirstSeenBy_nil]
  | case2 t ts ih =>
    rw [dedupFirstSeenBy_cons, List.map_cons, List.nodup_cons]
    refine ⟨fun hmem => ?_, ih⟩
    rcases List.mem_map.mp hmem with ⟨u, hu, hku⟩
    have hu' := (dedupFirstSeenBy_sublist key _).subset hu
    have := (List.mem_filter.mp hu').2
    simp only [hku] at this
    simp at this

theorem dedupFirstSeenBy_mem_keys (key : Track → String) (l : List Track) :
    ∀ t ∈ l, key t ∈ (dedupFirstSeenBy key l).map key := by
  induction l using dedupFirstSeenBy.induct key with
  | case1 => simp
  | case2 x ts ih =>
    intro t ht
    rw [dedupFirstSeenBy_cons, List.map_cons]
    rcases List.mem_cons.mp ht with rfl | hts
    · exact List.mem_cons_self _ _
    · by_cases hk : key t = key x
      · simp [hk]
      · refine List.mem_cons_of_mem _ (ih t ?_)
        exact List.mem_filter.mpr ⟨hts, by simp [hk]⟩

theorem dedupFirstSeenBy_eq_nil_iff (key : Track → String) (l : List Track) :
    dedupFirstSeenBy key l = [] ↔ l = [] := by
  cases l <;> simp [dedupFirstSeenBy_nil, dedupFirstSeenBy_cons]

theorem removeDuplicates_eq_nil_iff (l : List Track) :
    removeDuplicates l = [] ↔ l = [] := by
  rw [removeDuplicates_eq_dedup, dedupFirstSeenBy_eq_nil_iff]

/-- Claim C5, counterexample: two raw records whose `(artist, title)` match
case-insensitively after trimming (they differ only in letter case, both
without an id) are *both* kept by `_remove_duplicates`, because the dedup
identity is the exact case-sensitive `name + "-" + artist` string, not the
spec's TrackKey. -/
theorem dedup_case_sensitive_cx :
    removeDuplicates
        [⟨"Tum Hi Ho", "Arijit Singh", "Aashiqui 2", none, none, 80⟩,
         ⟨"tum hi ho", "arijit singh", "aashiqui 2", none, none, 75⟩]
      = [⟨"Tum Hi Ho", "Arijit Singh", "Aashiqui 2", none, none, 80⟩,
         ⟨"tum hi ho", "arijit singh", "aashiqui 2", none, none, 75⟩]
    ∧ specTrackKey ⟨"Tum Hi Ho", "Arijit Singh", "Aashiqui 2", none, none, 80⟩
        = specTrackKey ⟨"tum hi ho", "arijit singh", "aashiqui 2", none, none, 75⟩
    ∧ (removeDuplicates
        [⟨"Tum Hi Ho", "Arijit Singh", "Aashiqui 2", none, none, 80⟩,
         ⟨"tum hi ho", "arijit singh", "aashiqui 2", none, none, 75⟩]).length ≠ 1 := by
  refine ⟨by decide, by decide, by decide⟩

/-- Claim C5, amended: deduplication keeps exactly one track per *effective
key* — the Spotify id when present and non-empty, otherwise the exact,
case-sensitive `name + "-" + artist` string — with the first-seen record for
each key winning; records whose artist/title match only case-insensitively
are not merged. -/
theorem dedup_first_seen_by_effkey (tracks : List Track) :
    removeDuplicates tracks = dedupFirstSeenBy effKey tracks
    ∧ (removeDuplicates tracks).Sublist tracks
    ∧ ((removeDuplicates tracks).map effKey).Nodup
    ∧ ∀ t ∈ tracks, effKey t ∈ (removeDuplicates tracks).map effKey := by
  rw [removeDuplicates_eq_dedup]
  exact ⟨rfl, dedupFirstSeenBy_sublist effKey tracks,
    dedupFirstSeenBy_nodup_keys effKey tracks,
    dedupFirstSeenBy_mem_keys effKey tracks⟩

/-- Claim C5, witness: the amended theorem applied to a concrete duplicate
pair sharing one id — one survivor carrying the shared key. -/
theorem dedup_first_seen_by_effkey_witness :
    effKey ⟨"Kesariya", "Arijit Singh", "B", some "id1", none, 90⟩
      ∈ (removeDuplicates
          [⟨"Kesariya", "Arijit Singh", "B", some "id1", none, 90⟩,
           ⟨"Kesariya (Copy)", "Arijit Singh", "B", some "id1", none, 70⟩]).map effKey :=
  (dedup_first_seen_by_effkey
      [⟨"Kesariya", "Arijit Singh", "B", some "id1", none, 90⟩,
       ⟨"Kesariya (Copy)", "Arijit Singh", "B", some "id1", none, 70⟩]).2.2.2
    ⟨"Kesariya", "Arijit Singh", "B", some "id1", none, 90⟩ (by simp)

/-! ### Selection length (claim C4) -/

theorem list_isEmpty_false {α : Type} {l : List α} (h : l ≠ []) : l.isEmpty = false := by
  cases l with
  | nil => exact absurd rfl h
  | cons a t => rfl

theorem list_ne_nil_of_isEmpty_false {α : Type} {l : List α}
    (h : l.isEmpty = false) : l ≠ [] := by
  cases l with
  | nil => simp at h
  | cons a t => simp

theorem simpleTrackSelection_length
    (shuffleRemaining shuffleSelected : List Track → List Track)
    (hR : ∀ l, (shuffleRemaining l).length = l.length)
    (hSel : ∀ l, (shuffleSelected l).length = l.length)
    (tracks : List Track) (tc : Nat) :
    (simpleTrackSelection shuffleRemaining shuffleSelected tracks tc).length
      = min tracks.length tc := by
  have hlen : (tracks.mergeSort popDescLE).length = tracks.length :=
    List.length_mergeSort _
  simp only [simpleTrackSelection]
  split
  · rename_i hcond
    rw [Bool.and_eq_true, Bool.not_eq_true'] at hcond
    obtain ⟨h1, h2⟩ := hcond
    have h1' : (tracks.mergeSort popDescLE).drop (tc * 7 / 10) ≠ [] :=
      list_ne_nil_of_isEmpty_false h1
    rw [ne_eq, List.drop_eq_nil_iff, hlen, not_le] at h1'
    have h2' : 0 < tc - tc * 7 / 10 := of_decide_eq_true h2
    rw [List.length_take, hSel, List.length_append, List.length_take,
      List.length_take, hR, List.length_drop, hlen]
    omega
  · rename_i hcond
    rw [List.length_take, hSel, List.length_take, hlen]
    by_cases hdrop : (tracks.mergeSort popDescLE).drop (tc * 7 / 10) = []
    · rw [List.drop_eq_nil_iff, hlen] at hdrop
      omega
    · have hne : ((tracks.mergeSort popDescLE).drop (tc * 7 / 10)).isEmpty = false :=
        list_isEmpty_false hdrop
      have hrc : ¬ 0 < tc - tc * 7 / 10 := by
        intro hpos
        exact hcond (by rw [Bool.and_eq_true, Bool.not_eq_true']
                        exact ⟨hne, decide_eq_true hpos⟩)
      omega

/-- Claim C4, counterexample: the selector output is not sorted by
popularity.  With the identity reordering (one legal outcome of
`random.shuffle`) a two-track candidate list whose popularities ascend is
returned unchanged — the small-list branch of `_curate_playlist` never
sorts at all — refuting the claimed popularity-descending order. -/
theorem selector_unsorted_cx :
    curatePlaylist id id id
        [⟨"Low", "A", "X", none, none, 1⟩, ⟨"High", "B", "X", none, none, 9⟩] 60
      = [⟨"Low", "A", "X", none, none, 1⟩, ⟨"High", "B", "X", none, none, 9⟩]
    ∧ popSortedDescBool (curatePlaylist id id id
        [⟨"Low", "A", "X", none, none, 1⟩, ⟨"High", "B", "X", none, none, 9⟩] 60)
      = false := by
  refine ⟨by decide, by decide⟩

/-- Claim C4, amended: for every candidate list and target count, and for
every length-preserving behaviour of the three `random.shuffle` calls, the
selector returns exactly `min(len(candidates), target_count)` tracks; the
output order, however, is the shuffled order (70% top-popularity pool plus
random picks, then a final shuffle), not a popularity-descending sort. -/
theorem selector_length_bound
    (shuffleSmall shuffleRemaining shuffleSelected : List Track → List Track)
    (hS : ∀ l, (shuffleSmall l).length = l.length)
    (hR : ∀ l, (shuffleRemaining l).length = l.length)
    (hSel : ∀ l, (shuffleSelected l).length = l.length)
    (tracks : List Track) (tc d : Nat) :
    (simpleTrackSelection shuffleRemaining shuffleSelected tracks tc).length
      = min tracks.length tc
    ∧ (curatePlaylist shuffleSmall shuffleRemaining shuffleSelected tracks d).length
      = min tracks.length (target_count d) := by
  refine ⟨simpleTrackSelection_length _ _ hR hSel tracks tc, ?_⟩
  simp only [curatePlaylist]
  split
  · rename_i hle
    rw [hS]
    omega
  · rename_i hgt
    rw [simpleTrackSelection_length _ _ hR hSel]

/-- Claim C4, witness: the amended theorem applied with identity shuffles to
a concrete three-track list, exercising both the small-list branch
(duration 60, target 17) and the 70/30 selection path (target 2). -/
theorem selector_length_bound_witness :
    (simpleTrackSelection id id
        [⟨"a", "a", "a", none, none, 5⟩, ⟨"b", "b", "b", none, none, 7⟩,
         ⟨"c", "c", "c", none, none, 3⟩] 2).length = min 3 2
    ∧ (curatePlaylist id id id
        [⟨"a", "a", "a", none, none, 5⟩, ⟨"b", "b", "b", none, none, 7⟩,
         ⟨"c", "c", "c", none, none, 3⟩] 60).length = min 3 (target_count 60) :=
  selector_length_bound id id id (fun _ => rfl) (fun _ => rfl) (fun _ => rfl)
    [⟨"a", "a", "a", none, none, 5⟩, ⟨"b", "b", "b", none, none, 7⟩,
     ⟨"c", "c", "c", none, none, 3⟩] 2 60

/-! ### Track gathering and total-outage behaviour (claim C1) -/

theorem gatherTracks_aux_eq_nil (search : String → List Track)
    (queries : List String) (acc : List Track) :
    (queries.foldl (fun acc q =>
        let ts := search q
        if ts.isEmpty then acc else acc ++ ts) acc = [])
    ↔ acc = [] ∧ ∀ q ∈ queries, search q = [] := by
  induction queries generalizing acc with
  | nil => simp
  | cons q qs ih =>
    simp only [List.foldl_cons]
    rw [ih]
    by_cases h : (search q).isEmpty
    · have hq : search q = [] := List.isEmpty_iff.mp h
      simp [h, hq]
    · have hq : search q ≠ [] := fun heq => h (by simp [heq])
      simp only [if_neg h, List.append_eq_nil]
      constructor
      · rintro ⟨⟨-, hsq⟩, -⟩
        exact absurd hsq hq
      · rintro ⟨-, hall⟩
        exact absurd (hall q (List.mem_cons_self q qs)) hq

theorem gatherTracks_eq_nil (search : String → List Track) (queries : List String) :
    gatherTracks search queries = [] ↔ ∀ q ∈ queries, search q = [] := by
  rw [gatherTracks, gatherTracks_aux_eq_nil]
  simp

theorem appendFold_eq_nil (search : String → List Track)
    (queries : List String) (acc : List Track) :
    (queries.foldl (fun acc q => acc ++ search q) acc = [])
    ↔ acc = [] ∧ ∀ q ∈ queries, search q = [] := by
  induction queries generalizing acc with
  | nil => simp
  | cons q qs ih =>
    simp only [List.foldl_cons]
    rw [ih, List.append_eq_nil]
    constructor
    · rintro ⟨⟨ha, hq⟩, hall⟩
      refine ⟨ha, fun x hx => ?_⟩
      rcases List.mem_cons.mp hx with rfl | hxs
      · exact hq
      · exact hall x hxs
    · rintro ⟨ha, hall⟩
      exact ⟨⟨ha, hall q (List.mem_cons_self q qs)⟩,
        fun x hx => hall x (List.mem_cons_of_mem q hx)⟩

theorem createPlaylistTracks_gather_nil (search : String → List Track)
    (getRecs : List String → List Track) (authenticated : Bool)
    (queries : List String) (prompt : String)
    (hA : gatherTracks search queries = []) :
    createPlaylistTracks search getRecs authenticated queries prompt
      = (if (removeDuplicates ((fallbackSearchQueries prompt).foldl
              (fun acc q => acc ++ search q) [])).isEmpty
         then .error noTracksMsg
         else .ok (removeDuplicates ((fallbackSearchQueries prompt).foldl
              (fun acc q => acc ++ search q) []))) := by
  have h0 : removeDuplicates ([] : List Track) = [] := rfl
  simp [createPlaylistTracks, hA, h0]

theorem removeDuplicates_isEmpty_false (l : List Track) (h : l ≠ []) :
    (removeDuplicates l).isEmpty = false :=
  list_isEmpty_false (fun h0 => h ((removeDuplicates_eq_nil_iff l).mp h0))

theorem createPlaylistTracks_gather_ne (search : String → List Track)
    (getRecs : List String → List Track) (authenticated : Bool)
    (queries : List String) (prompt : String)
    (hA : gatherTracks search queries ≠ []) :
    ∃ l, l ≠ [] ∧ createPlaylistTracks search getRecs authenticated queries prompt
      = .ok (removeDuplicates l) := by
  simp only [createPlaylistTracks]
  split
  · split
    · exact ⟨gatherTracks search queries, hA,
        by rw [if_neg (by simp [removeDuplicates_isEmpty_false _ hA])]⟩
    · have hne2 : gatherTracks search queries
          ++ getRecs (((gatherTracks search queries).take 5).filterMap Track.id
              |>.filter (fun s => !(s == ""))) ≠ [] := by
        simp [hA]
      exact ⟨_, hne2,
        by rw [if_neg (by simp [removeDuplicates_isEmpty_false _ hne2])]⟩
  · exact ⟨gatherTracks search queries, hA,
      by rw [if_neg (by simp [removeDuplicates_isEmpty_false _ hA])]⟩

/-- Claim C1, counterexample: under total catalog outage (every search —
planned and fallback — returns zero records) `create_playlist` raises
`Exception("No tracks found ...")` at playlist_generator.py:102 instead of
producing a zero-track playlist. -/
theorem create_playlist_outage_cx :
    createPlaylistTracks (fun _ => []) (fun _ => []) false
        ["happy songs", "upbeat songs"] "happy music"
      = .error noTracksMsg := rfl

/-- Claim C1, amended: failures of *individual* searches are absorbed
(`search_tracks` returns `[]` on any exception) and never abort the others;
`create_playlist` raises the "No tracks found" exception precisely when
every planned query and every fallback query contributes zero records —
rather than returning a zero-track playlist in that case. -/
theorem create_playlist_error_iff (search : String → List Track)
    (getRecs : List String → List Track) (authenticated : Bool)
    (queries : List String) (prompt : String) :
    createPlaylistTracks search getRecs authenticated queries prompt
        = .error noTracksMsg
    ↔ (∀ q ∈ queries, search q = [])
      ∧ (∀ q ∈ fallbackSearchQueries prompt, search q = []) := by
  by_cases hA : gatherTracks search queries = []
  · rw [createPlaylistTracks_gather_nil search getRecs authenticated queries prompt hA]
    by_cases hF : ∀ q ∈ fallbackSearchQueries prompt, search q = []
    · have hext : (fallbackSearchQueries prompt).foldl
          (fun acc q => acc ++ search q) [] = [] :=
        (appendFold_eq_nil search _ []).mpr ⟨rfl, hF⟩
      rw [hext]
      have hRD : removeDuplicates ([] : List Track) = [] := rfl
      rw [hRD]
      rw [if_pos (show (List.isEmpty ([] : List Track)) = true from rfl)]
      exact ⟨fun _ => ⟨(gatherTracks_eq_nil search queries).mp hA, hF⟩, fun _ => rfl⟩
    · have hext : (fallbackSearchQueries prompt).foldl
          (fun acc q => acc ++ search q) [] ≠ [] := by
        intro h0
        exact hF ((appendFold_eq_nil search _ []).mp h0).2
      rw [if_neg (by simp [removeDuplicates_isEmpty_false _ hext])]
      constructor
      · intro h
        exact absurd h (by simp)
      · rintro ⟨-, hall⟩
        exact absurd hall hF
  · obtain ⟨l, hl, heq⟩ :=
      createPlaylistTracks_gather_ne search getRecs authenticated queries prompt hA
    rw [heq]
    constructor
    · intro h
      exact absurd h (by simp)
    · rintro ⟨hall, -⟩
      exact absurd ((gatherTracks_eq_nil search queries).mpr hall) hA

/-- Claim C1, witness: the amended theorem applied to the all-searches-empty
instance, deriving the exception concretely. -/
theorem create_playlist_error_iff_witness :
    createPlaylistTracks (fun _ => []) (fun _ => []) true ["rock music"] "rock"
      = .error noTracksMsg :=
  (create_playlist_error_iff (fun _ => []) (fun _ => []) true ["rock music"] "rock").mpr
    ⟨by simp, by simp⟩

/-! ### Set-enumeration lemmas and the planner (claim C8) -/

theorem dedupKeepFirstAux_mem (l : List String) (seen : List String) (x : String) :
    x ∈ dedupKeepFirstAux l seen ↔ x ∈ l ∧ x ∉ seen := by
  induction l generalizing seen with
  | nil => simp [dedupKeepFirstAux]
  | cons a t ih =>
    by_cases h : a ∈ seen
    · rw [dedupKeepFirstAux, if_pos h, ih]
      constructor
      · rintro ⟨hx, hs⟩
        exact ⟨List.mem_cons_of_mem a hx, hs⟩
      · rintro ⟨hx, hs⟩
        rcases List.mem_cons.mp hx with rfl | hxt
        · exact absurd h hs
        · exact ⟨hxt, hs⟩
    · rw [dedupKeepFirstAux, if_neg h, List.mem_cons, ih]
      constructor
      · rintro (rfl | ⟨hx, hs⟩)
        · exact ⟨List.mem_cons_self .., h⟩
        · rw [List.mem_cons, not_or] at hs
          exact ⟨List.mem_cons_of_mem _ hx, hs.2⟩
      · rintro ⟨hx, hs⟩
        rcases List.mem_cons.mp hx with rfl | hxt
        · exact Or.inl rfl
        · by_cases hxa : x = a
          · exact Or.inl hxa
          · exact Or.inr ⟨hxt, by rw [List.mem_cons, not_or]; exact ⟨hxa, hs⟩⟩

theorem dedupKeepFirstAux_nodup (l : List String) (seen : List String) :
    (dedupKeepFirstAux l seen).Nodup := by
  induction l generalizing seen with
  | nil => simp [dedupKeepFirstAux]
  | cons a t ih =>
    by_cases h : a ∈ seen
    · rw [dedupKeepFirstAux, if_pos h]
      exact ih seen
    · rw [dedupKeepFirstAux, if_neg h, List.nodup_cons]
      refine ⟨fun hmem => ?_, ih (a :: seen)⟩
      exact ((dedupKeepFirstAux_mem t (a :: seen) a).mp hmem).2 (List.mem_cons_self a seen)

theorem dedupKeepFirst_isSetEnum : IsSetEnum dedupKeepFirst := by
  intro l
  refine ⟨dedupKeepFirstAux_nodup l [], fun x => ?_⟩
  rw [dedupKeepFirst, dedupKeepFirstAux_mem]
  simp

theorem revDedup_isSetEnum : IsSetEnum revDedup := by
  intro l
  obtain ⟨hnd, hmem⟩ := dedupKeepFirst_isSetEnum l
  refine ⟨by simpa [revDedup] using hnd, fun x => ?_⟩
  rw [revDedup, List.mem_reverse]
  exact hmem x

/-- Claim C8, counterexample: two legal CPython behaviours of
`list(set(queries))` — the first-seen order and its reverse, both
duplicate-free enumerations of the same six collected queries — give the
planner two *different* outputs for the same prompt, and the second output
violates first-seen ordering.  The planner's output is therefore neither
deterministic across interpreter processes nor stable first-seen ordered. -/
theorem planner_order_cx :
    generateFallbackQueries dedupKeepFirst "party"
      = ["party", "upbeat songs", "dance music", "party hits",
         "popular music", "trending songs"]
    ∧ generateFallbackQueries revDedup "party"
      = ["trending songs", "popular music", "party hits",
         "dance music", "upbeat songs", "party"]
    ∧ generateFallbackQueries dedupKeepFirst "party"
        ≠ generateFallbackQueries revDedup "party"
    ∧ (revDedup (buildFallbackQueryList "party")).Nodup
    ∧ ((revDedup (buildFallbackQueryList "party")).all
          (fun q => (buildFallbackQueryList "party").contains q)
        && (buildFallbackQueryList "party").all
          (fun q => (revDedup (buildFallbackQueryList "party")).contains q)) = true := by
  refine ⟨by decide, by decide, by decide, by decide, by decide⟩

/-- Claim C8, amended: for every legal `list(set(...))` enumeration
behaviour, the planner's output is a duplicate-free list of at most 7
queries all drawn from the deterministically collected query list; but the
*order* (and, when more than 7 distinct queries are collected, the chosen
subset) is the hash-dependent set-iteration order, so neither cross-process
determinism nor stable first-seen ordering is guaranteed. -/
theorem planner_enum_bound (e : List String → List String)
    (he : IsSetEnum e) (prompt : String) :
    (generateFallbackQueries e prompt).Nodup
    ∧ (generateFallbackQueries e prompt).length ≤ 7
    ∧ ∀ q ∈ generateFallbackQueries e prompt, q ∈ buildFallbackQueryList prompt := by
  obtain ⟨hnd, hmem⟩ := he (buildFallbackQueryList prompt)
  refine ⟨List.Nodup.sublist (List.take_sublist _ _) hnd, ?_,
    fun q hq => (hmem q).mp (List.mem_of_mem_take hq)⟩
  rw [generateFallbackQueries, List.length_take]
  exact Nat.min_le_left _ _

/-- Claim C8, witness: the amended theorem applied to the first-seen
enumeration at the concrete prompt "party". -/
theorem planner_enum_bound_witness :
    (generateFallbackQueries dedupKeepFirst "party").Nodup
    ∧ (generateFallbackQueries dedupKeepFirst "party").length ≤ 7 :=
  ⟨(planner_enum_bound dedupKeepFirst dedupKeepFirst_isSetEnum "party").1,
   (planner_enum_bound dedupKeepFirst dedupKeepFirst_isSetEnum "party").2.1⟩

/-! ### Fallback mood classification (claims C2, C3) -/

/-- Claim C2, counterexample: for the spec's own scenario — text
"😍 I want some music" with emojis ["😍"] — the fallback classifier returns
mood "neutral" with confidence 0.6, not "romantic" with 0.8: it never
consults the emoji at all, and even the emoji table maps 😍 to "joy", not
"romantic". -/
theorem emoji_mood_cx :
    (fallbackAnalysis "😍 I want some music").mood = "neutral"
    ∧ (fallbackAnalysis "😍 I want some music").mood ≠ "romantic"
    ∧ (fallbackAnalysis "😍 I want some music").confidence = 3/5
    ∧ (3 : ℚ)/5 ≠ 4/5
    ∧ emojiLookup "😍" = some "joy" := by
  refine ⟨rfl, by decide, rfl, by norm_num, rfl⟩

/-- Claim C2, amended: for every query whose lowered text matches no mood
keyword, the fallback classifier returns mood "neutral" with confidence 0.6
regardless of any emojis in the query, and every fallback result carries
confidence 0.6 (never 0.8). -/
theorem fallback_keyword_only (q : String)
    (h : ∀ p ∈ mood_keywords, ∀ k ∈ p.2, strContains (pyLower q) k = false) :
    fallbackAnalysis q = ⟨"neutral", "neutral", "neutral", 3/5⟩
    ∧ ∀ r : String, (fallbackAnalysis r).confidence = 3/5 := by
  refine ⟨?_, fun r => rfl⟩
  have hnone : mood_keywords.find?
      (fun p => p.2.any (fun k => strContains (pyLower q) k)) = none := by
    rw [List.find?_eq_none]
    intro p hp
    simp only [List.any_eq_true, not_exists]
    intro k
    rw [not_and]
    intro hk
    simp [h p hp k hk]
  simp [fallbackAnalysis, detectMood, hnone]

/-- Claim C2, witness: the amended theorem applied to the spec's scenario
query. -/
theorem fallback_keyword_only_witness :
    fallbackAnalysis "😍 I want some music" = ⟨"neutral", "neutral", "neutral", 3/5⟩ :=
  (fallback_keyword_only "😍 I want some music" (by decide)).1

/-- Claim C3, counterexample: with the ML pipelines available and returning
emotion "sadness" at confidence 0.1 — far below the claimed 0.6 threshold —
the merge still adopts the ML mood "sad" with confidence 0.1, discarding the
keyword mood ("happy" for the query "happy music") that the claim says
should be kept. -/
theorem ml_override_threshold_cx :
    (processTextAnalysis (.ai "positive" "sadness" (1/10)) (1/2) (1/2)).mood = "sad"
    ∧ (processTextAnalysis (.ai "positive" "sadness" (1/10)) (1/2) (1/2)).confidence = 1/10
    ∧ (1 : ℚ)/10 < 3/5
    ∧ (fallbackAnalysis "happy music").mood = "happy"
    ∧ (processTextAnalysis (.ai "positive" "sadness" (1/10)) (1/2) (1/2)).mood
        ≠ (fallbackAnalysis "happy music").mood := by
  refine ⟨rfl, rfl, by norm_num, rfl, by decide⟩

/-- Claim C3, amended: when the ML pipelines are available and succeed, the
mapped emotion label is adopted as the mood *unconditionally* — the adopted
mood does not depend on the confidence score at all, and the raw score
becomes the confidence; no 0.6 or 0.8 threshold exists.  Keyword-derived
moods are used only when the ML path is unavailable or fails, in which case
the fallback record is taken verbatim. -/
theorem ml_override_unconditional (sl el : String) (s s2 ev ee : ℚ)
    (r : FallbackResult) :
    (processTextAnalysis (.ai sl el s) ev ee).mood
      = (processTextAnalysis (.ai sl el s2) ev ee).mood
    ∧ (processTextAnalysis (.ai sl el s) ev ee).mood
      = (mood_mapping.lookup (pyLower el)).getD "neutral"
    ∧ (processTextAnalysis (.ai sl el s) ev ee).confidence = s
    ∧ (processTextAnalysis (.fb r) ev ee).mood = r.mood
    ∧ (processTextAnalysis (.fb r) ev ee).confidence = r.confidence :=
  ⟨rfl, rfl, rfl, rfl, rfl⟩

/-! ### `analyze_prompt` robustness (claim C10) -/

/-- Claim C10: for every prompt (and every behaviour of the external
language detector and emoji database), `analyze_prompt` returns a dict
containing the keys sentiment, language, duration_hint, emoji_sentiment and
raw_prompt, with raw_prompt equal to the input, and never raises: the
embedding is total, and concretely the genre-context scorer raises
`KeyError: energy` on "i want rock music" (every genre's sentiment map
carries the uninitialised "energy" key), which `analyze_prompt` absorbs
into the neutral default result carrying an `analysis_error` field. -/
theorem analyze_prompt_robust (detector : String → Except String String)
    (isEmoji : Char → Bool) (prompt : String) :
    ((analyzePrompt detector isEmoji prompt).lookup "sentiment").isSome
    ∧ ((analyzePrompt detector isEmoji prompt).lookup "language").isSome
    ∧ ((analyzePrompt detector isEmoji prompt).lookup "duration_hint").isSome
    ∧ ((analyzePrompt detector isEmoji prompt).lookup "emoji_sentiment").isSome
    ∧ (analyzePrompt detector isEmoji prompt).lookup "raw_prompt" = some (.str prompt)
    ∧ analyzeSentiment "i want rock music" = .error "KeyError: energy"
    ∧ (analyzePrompt detector isEmoji "i want rock music").lookup "sentiment"
        = some (.dict Scores.neutralOne)
    ∧ (analyzePrompt detector isEmoji "i want rock music").lookup "analysis_error"
        = some (.str "KeyError: energy") := by
  have hrock : analyzeSentiment "i want rock music" = .error "KeyError: energy" := rfl
  refine ⟨?_, ?_, ?_, ?_, ?_, hrock, ?_, ?_⟩
  · rcases h : analyzeSentiment prompt with e | s <;> simp [analyzePrompt, h, List.lookup]
  · rcases h : analyzeSentiment prompt with e | s <;> simp [analyzePrompt, h, List.lookup]
  · rcases h : analyzeSentiment prompt with e | s <;> simp [analyzePrompt, h, List.lookup]
  · rcases h : analyzeSentiment prompt with e | s <;> simp [analyzePrompt, h, List.lookup]
  · rcases h : analyzeSentiment prompt with e | s <;> simp [analyzePrompt, h, List.lookup]
  · rw [analyzePrompt, hrock]
    rfl
  · rw [analyzePrompt, hrock]
    rfl

end PlaylistMCP
